import Mathlib

/-!
Verification development for the batch HTTP submission engine in this
repository (proxy rotation in `proxies.py`, the submission client and batch
dispatcher in `form_handler.py`, data models in `models.py`, constants in
`config.py`).  Python functions are shallowly embedded as Lean functions;
the nondeterminism of `random.choice` is modelled by an explicit draw index,
network I/O by an explicit trace of per-attempt outcomes, and Python object
aliasing (the shallow `dict.copy`) by an explicit reference into a heap.
-/

set_option autoImplicit false

namespace Bil

/-! ## Proxy pool (src/umg_form_submitter/proxies.py) -/

/-- Python dataclass `Proxy`: hostname, port, username, password, optional
country and session_id. -/
structure Proxy where
  hostname : String
  port : Nat
  username : String
  password : String
  country : Option String := none
  sessionId : Option String := none
deriving Repr, DecidableEq

/-- Mutable state of `ProxyManager`: the pool, the configured rotation
strategy string, and the round-robin cursor `current_proxy_index`. -/
structure ProxyManager where
  proxies : List Proxy
  rotationStrategy : String
  currentProxyIndex : Nat
deriving Repr, DecidableEq

/-- Embeds `ProxyManager.get_random_proxy`: `random.choice(self.proxies)` on a
non-empty pool; `None` on an empty one.  The uniform draw of
`random.choice` is modelled by an arbitrary draw index reduced modulo the
pool size, so every pool element is a possible outcome. -/
def getRandomProxy (proxies : List Proxy) (draw : Nat) : Option Proxy :=
  if proxies.isEmpty then none
  else proxies[draw % proxies.length]?

/-- Embeds `ProxyManager.get_proxy_by_country`: filter the pool on an exact
country-tag match, then `random.choice` on the filtered list ( `None` when
no proxy matches). -/
def getProxyByCountry (proxies : List Proxy) (countryCode : String) (draw : Nat) :
    Option Proxy :=
  let countryProxies := proxies.filter (fun p => p.country == some countryCode)
  if countryProxies.isEmpty then none
  else countryProxies[draw % countryProxies.length]?

/-- Embeds `ProxyManager._get_round_robin_proxy`: on a non-empty pool the source
reads `proxy = self.proxies[self.current_proxy_index]` and then advances
`self.current_proxy_index`, but the function body ends with no return
statement, so the looked-up proxy is discarded and Python returns `None`. -/
def getRoundRobinProxy (m : ProxyManager) : Option Proxy × ProxyManager :=
  if m.proxies.isEmpty then (none, m)
  else
    (none, { m with currentProxyIndex := (m.currentProxyIndex + 1) % m.proxies.length })

/-- Python truthiness of the optional `country_code` argument: `None` and
the empty string are falsy. -/
def isTruthy : Option String → Bool
  | none => false
  | some s => !s.isEmpty

/-- Embeds `ProxyManager.get_next_proxy`: dispatch on the rotation strategy;
`country_match` requires a truthy country code and falls back to a random
pick when no proxy matches; any unrecognised strategy defaults to a random
pick.  Returns the chosen proxy together with the updated manager state. -/
def getNextProxy (m : ProxyManager) (countryCode : Option String) (draw : Nat) :
    Option Proxy × ProxyManager :=
  if m.proxies.isEmpty then (none, m)
  else if m.rotationStrategy == "random" then (getRandomProxy m.proxies draw, m)
  else if m.rotationStrategy == "round_robin" then getRoundRobinProxy m
  else if m.rotationStrategy == "country_match" && isTruthy countryCode then
    match countryCode with
    | some cc =>
      match getProxyByCountry m.proxies cc draw with
      | some p => (some p, m)
      | none => (getRandomProxy m.proxies draw, m)
    | none => (getRandomProxy m.proxies draw, m)
  else (getRandomProxy m.proxies draw, m)

/-- A concrete two-proxy pool used as the failing input for round-robin. -/
def rrProxy1 : Proxy := { hostname := "h1", port := 8080, username := "u1", password := "p1" }

/-- Second proxy of the concrete round-robin pool. -/
def rrProxy2 : Proxy := { hostname := "h2", port := 8081, username := "u2", password := "p2" }

/-- A `ProxyManager` freshly loaded with two proxies, strategy `round_robin`. -/
def rrManager : ProxyManager :=
  { proxies := [rrProxy1, rrProxy2], rotationStrategy := "round_robin", currentProxyIndex := 0 }

/-! ## Data models (src/models.py) -/

/-- Python dataclass `Subscriber`: email, country and postcode are plain strings
(possibly empty), first and last name are optional. -/
structure Subscriber where
  email : String
  country : String
  postcode : String
  firstName : Option String := none
  lastName : Option String := none
deriving Repr, DecidableEq

/-- Python dataclass `SubmissionResult`.  `status_code` and `response_text` are
declared but never assigned by the submitter; `attempts` defaults to `0`.
`submit_form` additionally stores the parsed response body on success,
modelled here by `responseData`. -/
structure SubmissionResult where
  subscriber : Subscriber
  success : Bool
  statusCode : Option Nat := none
  responseText : Option String := none
  errorMessage : Option String := none
  attempts : Nat := 0
  responseData : Option String := none
deriving Repr, DecidableEq

/-! ## Submission client (src/form_handler.py, `BatchSubmitter.submit_form`)

The constant `config.MAX_RETRIES` is 3.  One attempt of the retry loop
performs an OPTIONS pre-flight and, when the pre-flight did not raise, a
POST; each network call either yields a status/body or raises a transport
error.  The environment is modelled as a trace assigning an `AttemptEvent`
to every attempt index. -/

/-- The constant `MAX_RETRIES` from `config.py`. -/
def MAX_RETRIES : Nat := 3

/-- Outcome of one HTTP call: a response (status code and body text), or a
raised transport exception carrying its message. -/
inductive ReqOutcome where
  | ok (status : Nat) (text : String)
  | exn (msg : String)
deriving Repr, DecidableEq

/-- What the environment does during one attempt: the outcome of the
OPTIONS pre-flight and the outcome of the POST main request (the latter is
only consumed when the pre-flight did not raise). -/
structure AttemptEvent where
  preflight : ReqOutcome
  post : ReqOutcome
deriving Repr, DecidableEq

/-- Observable outcome of running `submit_form`: the returned result, the
number of loop attempts entered, and per entered attempt whether the main
POST request was actually issued. -/
structure RunOutcome where
  result : SubmissionResult
  attemptsUsed : Nat
  postsSent : List Bool
deriving Repr, DecidableEq

/-- The body of the `for attempt in range(MAX_RETRIES)` loop of `submit_form`,
one list element per remaining attempt.  A raised pre-flight or POST lands
in the `except` branch: the error message is recorded on the result and the
loop continues.  A POST response is classified: 200/201 returns success at
once (`success=True`, body captured, previous `error_message` untouched);
otherwise the error message is recorded, 429/503 retries, other 4xx returns
the failure at once, and any other status retries.  `result.attempts` is
never assigned anywhere in the loop. -/
def submitFormLoop : List AttemptEvent → SubmissionResult → RunOutcome
  | [], r => ⟨r, 0, []⟩
  | e :: rest, r =>
    match e.preflight with
    | .exn msg =>
      let out := submitFormLoop rest { r with errorMessage := some msg }
      ⟨out.result, out.attemptsUsed + 1, false :: out.postsSent⟩
    | .ok _ _ =>
      match e.post with
      | .exn msg =>
        let out := submitFormLoop rest { r with errorMessage := some msg }
        ⟨out.result, out.attemptsUsed + 1, true :: out.postsSent⟩
      | .ok status text =>
        if status = 200 ∨ status = 201 then
          ⟨{ r with success := true, responseData := some text }, 1, [true]⟩
        else
          let r2 := { r with errorMessage := some ("HTTP " ++ toString status ++ ": " ++ text) }
          if status = 429 ∨ status = 503 then
            let out := submitFormLoop rest r2
            ⟨out.result, out.attemptsUsed + 1, true :: out.postsSent⟩
          else if 400 ≤ status ∧ status < 500 then
            ⟨r2, 1, [true]⟩
          else
            let out := submitFormLoop rest r2
            ⟨out.result, out.attemptsUsed + 1, true :: out.postsSent⟩

/-- The `SubmissionResult` object `submit_form` constructs before its retry
loop: `success=False`, every optional field at its dataclass default. -/
def initResult (s : Subscriber) : SubmissionResult := { subscriber := s, success := false }

/-- Embeds `BatchSubmitter.submit_form` for a non-`None` subscriber: run the retry
loop for `MAX_RETRIES` attempts against the environment trace `tr`; when
the loop exhausts its range the current (failure) result is returned. -/
def submitForm (s : Subscriber) (tr : Nat → AttemptEvent) : RunOutcome :=
  submitFormLoop ((List.range MAX_RETRIES).map tr) (initResult s)

/-! ## Batch dispatcher (src/form_handler.py, `BatchSubmitter.submit_batch`)

The worker of each subscriber either returns a `SubmissionResult` or raises; the
pair list is given in the order the dispatcher consumes outcomes (submission
order in the sequential branch, `as_completed` order in the threaded one). -/

/-- What the `submit_form` call of a worker did for one subscriber: returned a
result, or raised an unexpected exception with the given message. -/
inductive WorkerOutcome where
  | done (r : SubmissionResult)
  | raised (msg : String)
deriving Repr, DecidableEq

/-- The synthesized failure result the sequential branch builds when
`submit_form` raises: `SubmissionResult(subscriber=..., success=False)`
with `error_message` set to the exception text. -/
def syntheticFailure (s : Subscriber) (msg : String) : SubmissionResult :=
  { subscriber := s, success := false, errorMessage := some msg }

/-- Threaded branch (`max_threads > 1`): each `future.result()` that
re-raises a worker exception is caught and only logged — nothing is
appended to `results` for that record. -/
def submitBatchThreaded (items : List (Subscriber × WorkerOutcome)) : List SubmissionResult :=
  items.filterMap fun item =>
    match item.2 with
    | .done r => some r
    | .raised _ => none

/-- Sequential branch (`max_threads == 1`): a raised `submit_form` is
caught and converted into a synthesized failure result for that record. -/
def submitBatchSingle (items : List (Subscriber × WorkerOutcome)) : List SubmissionResult :=
  items.map fun item =>
    match item.2 with
    | .done r => r
    | .raised msg => syntheticFailure item.1 msg

/-- Embeds `BatchSubmitter.submit_batch`: the constructor clamps `max_threads` to
at least 1, and the thread pool is used exactly when `max_threads > 1`. -/
def submitBatch (maxThreads : Nat) (items : List (Subscriber × WorkerOutcome)) :
    List SubmissionResult :=
  if 1 < maxThreads then submitBatchThreaded items else submitBatchSingle items

/-! ## Result aggregator (src/form_handler.py, `_update_stats` / `get_stats`)

The dict `self.stats` holds three counters plus an `errors` `defaultdict`.
`get_stats` returns `self.stats.copy()` — a shallow copy, so the counters
are copied by value while the `errors` entry is copied as a reference to
the same mutable dict.  The aliasing is modelled by an explicit reference
(`errorsRef`) into a heap of histograms. -/

/-- Bool test for one string occurring as a contiguous substring of
another, via character lists, as in the Python operator `needle in hay`. -/
def matchesAt : List Char → List Char → Bool
  | [], _ => true
  | _ :: _, [] => false
  | a :: as, b :: bs => a == b && matchesAt as bs

/-- Substring search over character lists. -/
def hasSubList (needle : List Char) : List Char → Bool
  | [] => matchesAt needle []
  | b :: t => matchesAt needle (b :: t) || hasSubList needle t

/-- Python `needle in hay` on strings. -/
def strContains (hay needle : String) : Bool :=
  hasSubList needle.data hay.data

/-- Python `str.lower()`: lowercase the string character by character. -/
def strLower (s : String) : String :=
  String.mk (s.data.map Char.toLower)

/-- The error classification of `_update_stats`:
`err = result.error_message or "unknown"` (Python truthiness: `None` and
the empty string fall back), then the priority chain
`"429" in err` → `rate_limit`, `"403" in err` → `forbidden`,
`"timeout" in err.lower()` → `timeout`, `"connection" in err.lower()` →
`connection`, else `err[:30]`. -/
def classifyError (em : Option String) : String :=
  let err := match em with
    | none => "unknown"
    | some s => if s = "" then "unknown" else s
  if strContains err "429" then "rate_limit"
  else if strContains err "403" then "forbidden"
  else if strContains (strLower err) "timeout" then "timeout"
  else if strContains (strLower err) "connection" then "connection"
  else String.mk (err.data.take 30)

/-- Error-category histogram: the `errors` defaultdict as an association
list; incrementing an absent key inserts it with count 1. -/
def bump (k : String) : List (String × Nat) → List (String × Nat)
  | [] => [(k, 1)]
  | (k2, v) :: rest => if k2 = k then (k2, v + 1) :: rest else (k2, v) :: bump k rest

/-- The value part of the `self.stats` dict: the three integer counters by
value, and the `errors` entry as a reference into the heap (Python stores
the defaultdict object by reference). -/
structure StatsData where
  total : Nat
  success : Nat
  failure : Nat
  errorsRef : Nat
deriving Repr, DecidableEq

/-- The full state of the aggregator: the live `self.stats` dict plus the heap
holding every `errors` histogram reachable by reference. -/
structure AggState where
  stats : StatsData
  heap : Nat → List (String × Nat)

/-- Embeds `BatchSubmitter.__init__`: all counters 0 and a fresh empty `errors`
defaultdict allocated at reference 0. -/
def initAgg : AggState :=
  { stats := { total := 0, success := 0, failure := 0, errorsRef := 0 }, heap := fun _ => [] }

/-- Embeds `BatchSubmitter._update_stats`: under the stats lock, increment
`total`, then either `success`, or `failure` together with the error
histogram at the classified category key.  The histogram mutation happens
in place, through the live `errorsRef`. -/
def updateStats (r : SubmissionResult) (a : AggState) : AggState :=
  let s := a.stats
  if r.success then
    { stats := { s with total := s.total + 1, success := s.success + 1 }, heap := a.heap }
  else
    let key := classifyError r.errorMessage
    { stats := { s with total := s.total + 1, failure := s.failure + 1 },
      heap := fun ref => if ref = s.errorsRef then bump key (a.heap ref) else a.heap ref }

/-- Embeds `BatchSubmitter.get_stats`: `self.stats.copy()` — the returned snapshot
carries the counters by value and the `errors` entry as the same reference
as the live dict. -/
def getStats (a : AggState) : StatsData := a.stats

/-- Reading the `errors` histogram of a snapshot at a later point in time:
dereference the `errors` entry of the snapshot in the then-current heap. -/
def snapshotErrors (snap : StatsData) (a : AggState) : List (String × Nat) :=
  a.heap snap.errorsRef

/-- Case-insensitive substring test, as the spec words it: lowercase both
sides and look for a contiguous occurrence. -/
def lowerContains (hay needle : String) : Bool :=
  strContains (strLower hay) (strLower needle)

/-- The wording the spec gives for the aggregator error classification, for the
refinement comparison with `classifyError`: substring-match priority
rate-limit (`429` present) over forbidden (`403` present) over timeout
(case-insensitive) over connection (case-insensitive), with fallback the
first 30 characters of the raw error string verbatim. -/
def classifySpecC7 (err : String) : String :=
  if strContains err "429" then "rate_limit"
  else if strContains err "403" then "forbidden"
  else if lowerContains err "timeout" then "timeout"
  else if lowerContains err "connection" then "connection"
  else String.mk (err.data.take 30)

/-- The part of a pre-flight outcome `submit_form` can react to: whether it
raised, and with which message.  A received pre-flight response (status and
body) is outside this shape — the code never reads it. -/
def preflightShape : ReqOutcome → Option String
  | .ok _ _ => none
  | .exn msg => some msg

/-! ## Concrete fixtures -/

/-- A concrete subscriber record. -/
def sub1 : Subscriber := { email := "a@example.com", country := "FR", postcode := "75001" }

/-- Attempt event: pre-flight answered, POST answered with 404. -/
def ev404 : AttemptEvent := { preflight := .ok 204 "", post := .ok 404 "Not Found" }

/-- A trace answering 404 on every attempt. -/
def trace404 : Nat → AttemptEvent := fun _ => ev404

/-- Attempt event: pre-flight answered, POST answered with 503. -/
def ev503 : AttemptEvent := { preflight := .ok 204 "", post := .ok 503 "busy" }

/-- Attempt event: pre-flight answered, POST answered with 200. -/
def ev200 : AttemptEvent := { preflight := .ok 204 "", post := .ok 200 "ok" }

/-- A trace answering 503 on the first attempt and 200 afterwards. -/
def trace503then200 : Nat → AttemptEvent := fun n => if n = 0 then ev503 else ev200

/-- Attempt event whose pre-flight raises a transport error. -/
def evPfRaise : AttemptEvent := { preflight := .exn "connection refused", post := .ok 200 "ok" }

/-- A trace where the pre-flight of the first attempt raises, later attempts succeed. -/
def tracePfRaise : Nat → AttemptEvent := fun n => if n = 0 then evPfRaise else ev200

/-- A concrete failed result carrying a connection error message. -/
def failConnResult : SubmissionResult :=
  { subscriber := sub1, success := false, errorMessage := some "connection refused" }

/-- A `ProxyManager` configured with a rotation strategy outside the three
recognised ones. -/
def weirdManager : ProxyManager :=
  { proxies := [rrProxy1], rotationStrategy := "weird", currentProxyIndex := 0 }

/-- A concrete failed result whose raised exception stringified to the
empty string (e.g. a bare `Exception()`), so `error_message` is `""`. -/
def emptyErrResult : SubmissionResult :=
  { subscriber := sub1, success := false, errorMessage := some "" }

/-! ## Helper lemmas -/

/-- No branch of the retry loop ever writes the `attempts` field. -/
theorem submitFormLoop_attempts (evs : List AttemptEvent) (r : SubmissionResult) :
    (submitFormLoop evs r).result.attempts = r.attempts := by
  induction evs generalizing r with
  | nil => rfl
  | cons e rest ih =>
    rcases e with ⟨pf, po⟩
    cases pf with
    | exn msg => simp [submitFormLoop, ih]
    | ok st tx =>
      cases po with
      | exn msg => simp [submitFormLoop, ih]
      | ok status text =>
        simp only [submitFormLoop]
        split
        · rfl
        · split
          · simp [ih]
          · split
            · rfl
            · simp [ih]

/-- Entering the retry loop with at least one attempt left uses at least
one attempt. -/
theorem submitFormLoop_attemptsUsed_pos (e : AttemptEvent) (rest : List AttemptEvent)
    (r : SubmissionResult) : 1 ≤ (submitFormLoop (e :: rest) r).attemptsUsed := by
  rcases e with ⟨pf, po⟩
  cases pf with
  | exn msg => simp [submitFormLoop]
  | ok st tx =>
    cases po with
    | exn msg => simp [submitFormLoop]
    | ok status text =>
      simp only [submitFormLoop]
      split
      · simp
      · split
        · simp
        · split
          · simp
          · simp

/-- One step of the retry loop when the pre-flight raises: the error is
recorded, no POST happens this attempt, and the loop moves on. -/
theorem submitFormLoop_cons_exn (e : AttemptEvent) (rest : List AttemptEvent)
    (r : SubmissionResult) (msg : String) (h : e.preflight = ReqOutcome.exn msg) :
    submitFormLoop (e :: rest) r =
      ⟨(submitFormLoop rest { r with errorMessage := some msg }).result,
       (submitFormLoop rest { r with errorMessage := some msg }).attemptsUsed + 1,
       false :: (submitFormLoop rest { r with errorMessage := some msg }).postsSent⟩ := by
  conv_lhs => rw [submitFormLoop]
  rw [h]

/-- The retry loop reads nothing of a received pre-flight response: two
event lists that agree on whether each pre-flight raised (and on the raise
message) and on every POST outcome drive the loop identically. -/
theorem submitFormLoop_shape_inv (evs1 evs2 : List AttemptEvent)
    (h : List.Forall₂
      (fun e1 e2 => preflightShape e1.preflight = preflightShape e2.preflight ∧
        e1.post = e2.post) evs1 evs2) (r : SubmissionResult) :
    submitFormLoop evs1 r = submitFormLoop evs2 r := by
  induction h generalizing r with
  | nil => rfl
  | cons h12 hrest ih =>
    rcases h12 with ⟨hpf, hpo⟩
    rename_i e1 e2 l1 l2
    cases hp1 : e1.preflight with
    | exn m1 =>
      cases hp2 : e2.preflight with
      | exn m2 =>
        have hm : m1 = m2 := by
          rw [hp1, hp2] at hpf
          simpa [preflightShape] using hpf
        simp [submitFormLoop, hp1, hp2, hm, ih]
      | ok s2 t2 =>
        rw [hp1, hp2] at hpf
        simp [preflightShape] at hpf
    | ok s1 t1 =>
      cases hp2 : e2.preflight with
      | exn m2 =>
        rw [hp1, hp2] at hpf
        simp [preflightShape] at hpf
      | ok s2 t2 =>
        cases hq : e1.post with
        | exn m =>
          simp [submitFormLoop, hp1, hp2, hq, ← hpo, ih]
        | ok status text =>
          simp only [submitFormLoop, hp1, hp2, hq, ← hpo]
          split
          · rfl
          · split
            · simp [ih]
            · split
              · rfl
              · simp [ih]

/-- Classification of a non-empty recorded error message coincides with the
classification chain worded by the spec. -/
theorem classifyError_eq_spec (err : String) (h : err ≠ "") :
    classifyError (some err) = classifySpecC7 err := by
  have hlt : strLower "timeout" = "timeout" := by decide
  have hlc : strLower "connection" = "connection" := by decide
  simp [classifyError, classifySpecC7, lowerContains, h, hlt, hlc]

/-- A single `_update_stats` call preserves `success + failure = total`. -/
theorem updateStats_preserves_total (r : SubmissionResult) (a : AggState)
    (h : a.stats.success + a.stats.failure = a.stats.total) :
    (updateStats r a).stats.success + (updateStats r a).stats.failure =
      (updateStats r a).stats.total := by
  cases hs : r.success <;> simp [updateStats, hs] <;> omega

/-- Folding `_update_stats` over any result list preserves the counter
invariant. -/
theorem foldl_updateStats_total (rs : List SubmissionResult) (a : AggState)
    (h : a.stats.success + a.stats.failure = a.stats.total) :
    (rs.foldl (fun b r => updateStats r b) a).stats.success +
      (rs.foldl (fun b r => updateStats r b) a).stats.failure =
      (rs.foldl (fun b r => updateStats r b) a).stats.total := by
  induction rs generalizing a with
  | nil => exact h
  | cons r rest ih => exact ih (updateStats r a) (updateStats_preserves_total r a h)

/-! ## Claims -/

/-- C1: the claim says K consecutive round-robin calls on a pool of K
proxies return each proxy once, in insertion order, then wrap.  In the
code, `_get_round_robin_proxy` looks the proxy up and advances the cursor
but has no return statement, so `get_next_proxy` yields `None` on every
call: on the concrete two-proxy pool the first call does not return the
first proxy and the second call does not return the second proxy. -/
theorem roundRobin_returns_none_every_call :
    (getNextProxy rrManager none 0).fst = none ∧
    (getNextProxy (getNextProxy rrManager none 0).snd none 0).fst = none ∧
    rrManager.proxies = [rrProxy1, rrProxy2] := by
  decide

/-- C2: the claim says every record yields exactly one `SubmissionResult`
for every concurrency, a raising worker degrading to a synthesized
failure.  In the threaded branch (`max_threads > 1`) a raised worker is
only logged, so a one-record batch whose worker raises returns an empty
list; the sequential branch does synthesize the failure result. -/
theorem threaded_batch_drops_raised_worker :
    submitBatch 2 [(sub1, WorkerOutcome.raised "boom")] = [] ∧
    submitBatch 1 [(sub1, WorkerOutcome.raised "boom")] = [syntheticFailure sub1 "boom"] := by
  decide

/-- C3: the claim says `attempts` of any produced result lies in
`[1, MAX_RETRIES]`.  `submit_form` never assigns `result.attempts`, so the
field keeps its dataclass default `0` on every environment trace — the
lower bound 1 is violated by every result the client produces. -/
theorem submitForm_attempts_always_zero (s : Subscriber) (tr : Nat → AttemptEvent) :
    (submitForm s tr).result.attempts = 0 := by
  show (submitFormLoop _ _).result.attempts = 0
  rw [submitFormLoop_attempts]
  rfl

/-- C4: the claim says a result with `success = true` never carries an
error description, including success after failed attempts.  On the trace
answering 503 then 200, the 503 attempt writes `error_message` and the
successful attempt sets `success = True` without clearing it: the returned
result is successful yet still carries the stale error. -/
theorem success_after_retry_keeps_stale_error :
    (submitForm sub1 trace503then200).result.success = true ∧
    (submitForm sub1 trace503then200).result.errorMessage = some "HTTP 503: busy" := by
  decide

/-- C5 counterexample: the claim says an attempt whose pre-flight raises
still proceeds to send the main request.  On the concrete trace whose
first pre-flight raises, the first attempt issues no POST (first entry of
`postsSent` is `false`). -/
theorem preflight_failure_main_request_not_sent :
    (tracePfRaise 0).preflight = ReqOutcome.exn "connection refused" ∧
    (submitForm sub1 tracePfRaise).postsSent = [false, true] := by
  decide

/-- C5 amended: a pre-flight transport error aborts the current attempt —
the main request is not sent in that attempt — and is handled as an
attempt failure (the submission is not aborted: the next attempt still
runs), while the pre-flight response itself is never inspected: the
outcome depends only on whether each pre-flight raised (and its message),
never on a received pre-flight status or body. -/
theorem preflight_failure_aborts_attempt_not_submission (s : Subscriber)
    (tr : Nat → AttemptEvent) (msg : String)
    (h0 : (tr 0).preflight = ReqOutcome.exn msg) :
    (submitForm s tr).postsSent.head? = some false ∧
    2 ≤ (submitForm s tr).attemptsUsed ∧
    (∀ tr2 : Nat → AttemptEvent,
      (∀ n, preflightShape (tr n).preflight = preflightShape (tr2 n).preflight ∧
        (tr n).post = (tr2 n).post) →
      submitForm s tr = submitForm s tr2) := by
  have hr : (List.range MAX_RETRIES).map tr = [tr 0, tr 1, tr 2] := rfl
  refine ⟨?_, ?_, ?_⟩
  · show (submitFormLoop ((List.range MAX_RETRIES).map tr) (initResult s)).postsSent.head? =
      some false
    rw [hr]
    simp [submitFormLoop, h0]
  · show 2 ≤ (submitFormLoop ((List.range MAX_RETRIES).map tr) (initResult s)).attemptsUsed
    rw [hr, submitFormLoop_cons_exn (tr 0) [tr 1, tr 2] (initResult s) msg h0]
    exact Nat.succ_le_succ (submitFormLoop_attemptsUsed_pos _ _ _)
  · intro tr2 hsh
    show submitFormLoop ((List.range MAX_RETRIES).map tr) (initResult s) =
      submitFormLoop ((List.range MAX_RETRIES).map tr2) (initResult s)
    exact submitFormLoop_shape_inv _ _
      (List.Forall₂.cons (hsh 0) (List.Forall₂.cons (hsh 1)
        (List.Forall₂.cons (hsh 2) List.Forall₂.nil))) (initResult s)

/-- C5 witness: the amended theorem applied to the concrete trace whose
first pre-flight raises. -/
theorem preflight_failure_aborts_attempt_witness :
    (submitForm sub1 tracePfRaise).postsSent.head? = some false ∧
    2 ≤ (submitForm sub1 tracePfRaise).attemptsUsed :=
  ⟨(preflight_failure_aborts_attempt_not_submission sub1 tracePfRaise
      "connection refused" rfl).1,
   (preflight_failure_aborts_attempt_not_submission sub1 tracePfRaise
      "connection refused" rfl).2.1⟩

/-- C6 counterexample: the claim says a 404 on attempt 1 yields a failure
result with `attempts = 1`.  On the concrete 404 trace the returned result
is a failure but its `attempts` field is `0`, not `1`, because
`submit_form` never updates it. -/
theorem client_error_attempts_field_not_one :
    (submitForm sub1 trace404).result.success = false ∧
    (submitForm sub1 trace404).result.attempts ≠ 1 := by
  decide

/-- C6 amended: a status in `[400, 500)` outside the transient set
`{429, 503}` on the first attempt makes the client return a failure
immediately — exactly one attempt is performed, no retry — with the HTTP
error recorded; the `attempts` field of the result however stays at its
default `0`, never `1`. -/
theorem client_error_no_retry (s : Subscriber) (tr : Nat → AttemptEvent)
    (pf : Nat) (pt : String) (st : Nat) (tx : String)
    (h0 : tr 0 = { preflight := ReqOutcome.ok pf pt, post := ReqOutcome.ok st tx })
    (h4 : 400 ≤ st) (h5 : st < 500) (h429 : st ≠ 429) :
    (submitForm s tr).attemptsUsed = 1 ∧
    (submitForm s tr).result.success = false ∧
    (submitForm s tr).result.errorMessage =
      some ("HTTP " ++ toString st ++ ": " ++ tx) ∧
    (submitForm s tr).result.attempts = 0 := by
  have hr : (List.range MAX_RETRIES).map tr = [tr 0, tr 1, tr 2] := rfl
  have h1 : ¬ (st = 200 ∨ st = 201) := by omega
  have h2 : ¬ (st = 429 ∨ st = 503) := by omega
  have h3 : 400 ≤ st ∧ st < 500 := ⟨h4, h5⟩
  have hout : submitForm s tr =
      submitFormLoop ((List.range MAX_RETRIES).map tr) (initResult s) := rfl
  rw [hout, hr, h0]
  simp only [submitFormLoop]
  rw [if_neg h1, if_neg h2, if_pos h3]
  exact ⟨rfl, rfl, rfl, rfl⟩

/-- C6 witness: the amended theorem applied to the concrete 404 trace. -/
theorem client_error_no_retry_witness :
    (submitForm sub1 trace404).attemptsUsed = 1 ∧
    (submitForm sub1 trace404).result.success = false ∧
    (submitForm sub1 trace404).result.errorMessage =
      some ("HTTP " ++ toString 404 ++ ": " ++ "Not Found") ∧
    (submitForm sub1 trace404).result.attempts = 0 :=
  client_error_no_retry sub1 trace404 204 "" 404 "Not Found" rfl
    (by decide) (by decide) (by decide)

/-- C7 counterexample: the claim says the fallback category key is the
first 30 characters of the raw error string verbatim.  Recording a failed
result whose raw error string is empty bumps the histogram at the fixed
key `unknown` (the code defaults `err = error_message or "unknown"`), not
at the verbatim first-30-characters key, which would be the empty
string. -/
theorem empty_error_classified_unknown_not_verbatim :
    (updateStats emptyErrResult initAgg).heap initAgg.stats.errorsRef =
      [("unknown", 1)] ∧
    (updateStats emptyErrResult initAgg).heap initAgg.stats.errorsRef ≠
      [(String.mk (List.take 30 ("" : String).data), 1)] := by
  decide

/-- C7 amended: recording a failed result bumps the error histogram at the
category key the priority chain of the spec determines on the raw error
string: 429 → rate-limit, else 403 → forbidden, else case-insensitive
timeout, else case-insensitive connection, else — when the raw error
string is non-empty — its first 30 characters verbatim; an absent or empty
error string is classified under the fixed key `unknown`. -/
theorem update_stats_classifies_with_unknown_fallback (a : AggState)
    (r : SubmissionResult) (hs : r.success = false) :
    (updateStats r a).heap a.stats.errorsRef =
      bump (match r.errorMessage with
        | none => "unknown"
        | some err => if err = "" then "unknown" else classifySpecC7 err)
        (a.heap a.stats.errorsRef) := by
  have hkey : classifyError r.errorMessage =
      (match r.errorMessage with
        | none => "unknown"
        | some err => if err = "" then "unknown" else classifySpecC7 err) := by
    cases he : r.errorMessage with
    | none => decide
    | some err =>
      show classifyError (some err) = if err = "" then "unknown" else classifySpecC7 err
      by_cases hemp : err = ""
      · rw [hemp]
        decide
      · rw [if_neg hemp]
        exact classifyError_eq_spec err hemp
  simp [updateStats, hs, hkey]

/-- C7 witness: the amended classification theorem applied to the concrete
empty-error failed result, exercising the `unknown` fallback. -/
theorem update_stats_classifies_fallback_witness :
    (updateStats emptyErrResult initAgg).heap initAgg.stats.errorsRef =
      bump (match emptyErrResult.errorMessage with
        | none => "unknown"
        | some err => if err = "" then "unknown" else classifySpecC7 err)
        (initAgg.heap initAgg.stats.errorsRef) :=
  update_stats_classifies_with_unknown_fallback initAgg emptyErrResult rfl

/-- C8: the claim says mutations after a snapshot never alter the
contents of a snapshot, including the per-category error histogram.
`get_stats` returns `self.stats.copy()`, a shallow copy sharing the
`errors` defaultdict: on the concrete run, the histogram of the snapshot is
empty when taken yet contains the later-recorded `connection` entry after
one more failed result is recorded. -/
theorem stats_snapshot_shares_error_histogram :
    snapshotErrors (getStats initAgg) initAgg = [] ∧
    snapshotErrors (getStats initAgg) (updateStats failConnResult initAgg) =
      [("connection", 1)] := by
  decide

/-- C9: after any sequence of `_update_stats` calls starting from the
freshly initialised aggregator, every snapshot satisfies
`success + failure = total`. -/
theorem stats_success_plus_failure_eq_total (rs : List SubmissionResult) :
    (getStats (rs.foldl (fun b r => updateStats r b) initAgg)).success +
      (getStats (rs.foldl (fun b r => updateStats r b) initAgg)).failure =
      (getStats (rs.foldl (fun b r => updateStats r b) initAgg)).total :=
  foldl_updateStats_total rs initAgg rfl

/-- C10: on a non-empty pool, `get_next_proxy` with a rotation strategy
outside the three recognised ones, or with `country_match` but no country
code supplied, falls through to the default branch: it returns exactly the
uniform random pick `get_random_proxy` makes, which is some member of the
pool — never `None` and never an error. -/
theorem unknown_strategy_falls_back_to_random (m : ProxyManager)
    (cc : Option String) (draw : Nat) (hne : m.proxies ≠ [])
    (hs : m.rotationStrategy ∉ (["random", "round_robin", "country_match"] : List String) ∨
      (m.rotationStrategy = "country_match" ∧ cc = none)) :
    (getNextProxy m cc draw).fst = getRandomProxy m.proxies draw ∧
    (getNextProxy m cc draw).snd = m ∧
    ∃ p, (getNextProxy m cc draw).fst = some p ∧ p ∈ m.proxies := by
  have hemp : m.proxies.isEmpty = false := by
    cases hp : m.proxies with
    | nil => exact absurd hp hne
    | cons x xs => rfl
  have hr : (m.rotationStrategy == "random") = false ∧
      (m.rotationStrategy == "round_robin") = false ∧
      (m.rotationStrategy == "country_match" && isTruthy cc) = false := by
    rcases hs with hs | ⟨hcm, hccn⟩
    · have h1 : m.rotationStrategy ≠ "random" := fun h => hs (by simp [h])
      have h2 : m.rotationStrategy ≠ "round_robin" := fun h => hs (by simp [h])
      have h3 : m.rotationStrategy ≠ "country_match" := fun h => hs (by simp [h])
      refine ⟨beq_eq_false_iff_ne.mpr h1, beq_eq_false_iff_ne.mpr h2, ?_⟩
      rw [beq_eq_false_iff_ne.mpr h3]
      rfl
    · refine ⟨?_, ?_, ?_⟩
      · rw [hcm]; rfl
      · rw [hcm]; rfl
      · rw [hccn]
        simp [isTruthy]
  have hfst : getNextProxy m cc draw = (getRandomProxy m.proxies draw, m) := by
    simp [getNextProxy, hemp, hr.1, hr.2.1, hr.2.2]
  have hlen : 0 < m.proxies.length := List.length_pos.mpr hne
  have hmod : draw % m.proxies.length < m.proxies.length := Nat.mod_lt _ hlen
  have hrand : getRandomProxy m.proxies draw =
      some (m.proxies.get ⟨draw % m.proxies.length, hmod⟩) := by
    simp [getRandomProxy, hemp, List.getElem?_eq_getElem hmod, List.get_eq_getElem]
  refine ⟨by rw [hfst], by rw [hfst], ?_⟩
  exact ⟨m.proxies.get ⟨draw % m.proxies.length, hmod⟩,
    by rw [hfst, hrand], List.get_mem _ _ hmod⟩

/-- C10 witness: the fallback theorem applied to a concrete one-proxy pool
with an unrecognised strategy. -/
theorem unknown_strategy_fallback_witness :
    (getNextProxy weirdManager none 0).fst = getRandomProxy weirdManager.proxies 0 :=
  (unknown_strategy_falls_back_to_random weirdManager none 0 (by decide)
    (Or.inl (by decide))).1

end Bil
